import Mathlib

/-!
# Verification of the Handmade Chocolate API catalog service

Shallow embedding of `src/main.py` (FastAPI service over a MongoDB-backed
document store).  The repository files `database.py` and `schemas.py` are not
present; where their behaviour is needed it is modelled from the spec
(Catalog Store Adapter contract, §4.1) and each such definition is marked
`Modelled from the spec:` in its doc comment.  MongoDB query-operator
behaviour (`$regex` with the `i` option, `$in`, exact field match) is
modelled from the mongod documentation, since the database engine is an
external collaborator of the repository.
-/

namespace ChocolateApi

/-! ## ObjectId model (bson)

`bson.ObjectId(s)` on a `str` argument succeeds exactly when `s` is a
24-character hexadecimal string, and raises `InvalidId` otherwise.  Two
ObjectIds built from hex strings are equal iff the strings agree up to
letter case. -/

def isHexDigitChar (c : Char) : Bool :=
  c.isDigit || (Char.ofNat 97 ≤ c && c ≤ Char.ofNat 102) ||
    (Char.ofNat 65 ≤ c && c ≤ Char.ofNat 70)

def isValidObjectIdStr (s : String) : Bool :=
  s.length == 24 && s.data.all isHexDigitChar

/-- `ObjectId(choc_id)` as used in `get_chocolate`: keeps the hex string on
success, raises (modelled as `.error` with the exception message) on a
malformed identifier. -/
def parseObjectId (s : String) : Except String String :=
  if isValidObjectIdStr s then .ok s
  else .error (s ++ " is not a valid ObjectId, it must be a 12-byte input or a 24-character hex string")

/-- ObjectId equality: byte equality of the decoded ids, i.e. the hex
strings agree ignoring letter case. -/
def oidEq (a b : String) : Bool := a.toLower == b.toLower

/-- One lowercase hexadecimal digit character for `d < 16`. -/
def hexChar (d : Nat) : Char :=
  if d < 10 then Char.ofNat (48 + d) else Char.ofNat (97 + (d - 10))

/-- Modelled from the spec: the store assigns each inserted document a fresh
opaque identifier, exposed externally as a (24-hex-character ObjectId)
string.  We realise the id supply as a counter rendered in fixed-width
lowercase hex. -/
def oidToString (n : Nat) : String :=
  String.mk ((List.range 24).map (fun i => hexChar (n / 16 ^ (23 - i) % 16)))

/-! ## Data model (`ChocolateCreate` in `src/main.py`; `Chocolate` from the
missing `schemas.py`) -/

/-- A JSON field of a request payload: absent from the body, explicit
`null`, or a value.  Distinguishing `omitted` from `null` is what pydantic
does for `Optional` fields with a default. -/
inductive JField (α : Type) where
  | omitted
  | null
  | val (a : α)
  deriving DecidableEq, Repr

def JField.toOption {α : Type} : JField α → Option α
  | .omitted => none
  | .null => none
  | .val a => some a

/-- A create request body, before pydantic validation.  `price` is modelled
as `ℚ` (the service never computes with it).  `in_stock : bool = True` is
not `Optional`, so only omitted-vs-value is possible for it. -/
structure ChocolatePayload where
  name : String
  description : String
  price : ℚ
  category : String
  cacao_percent : JField Int
  image : JField String
  tags : JField (List String)
  in_stock : Option Bool
  deriving DecidableEq, Repr

/-- The validated `ChocolateCreate` model of `src/main.py` lines 59-67:
pydantic applies the declared defaults (`tags = []`, `in_stock = True`) when
a field is omitted, while an explicit `null` on an `Optional` field
validates to `None`. -/
structure ChocolateCreate where
  name : String
  description : String
  price : ℚ
  category : String
  cacao_percent : Option Int
  image : Option String
  tags : Option (List String)
  in_stock : Bool
  deriving DecidableEq, Repr

/-- Modelled from the spec: `schemas.Chocolate` (file `schemas.py` is not in
`src/`); `Chocolate(**payload.model_dump())` carries the validated fields
through unchanged, so the record type coincides with `ChocolateCreate`. -/
abbrev Chocolate := ChocolateCreate

/-- Pydantic validation of a request body against `ChocolateCreate`
(defaults per `src/main.py` lines 59-67). -/
def validatePayload (p : ChocolatePayload) : Chocolate :=
  { name := p.name
    description := p.description
    price := p.price
    category := p.category
    cacao_percent := p.cacao_percent.toOption
    image := p.image.toOption
    tags := match p.tags with
      | .omitted => some []
      | .null => none
      | .val l => some l
    in_stock := p.in_stock.getD true }

/-! ## Store model

Modelled from the spec, §4.1 (Catalog Store Adapter; `database.py` is not in
`src/`): a single `chocolate` collection of documents, each holding its
assigned `_id` and the record fields; `insert` persists a record and
returns its generated identifier, `query` returns up to `limit` matching
records in store order, `countAll` the total count. -/

structure StoredDoc where
  oid : String
  choc : Chocolate
  deriving DecidableEq, Repr

structure DbState where
  docs : List StoredDoc
  nextId : Nat
  deriving DecidableEq, Repr

/-- Modelled from the spec: `database.create_document` inserts the record
and returns its generated identifier as a string. -/
def create_document (st : DbState) (c : Chocolate) : String × DbState :=
  let i := oidToString st.nextId
  (i, { docs := st.docs ++ [⟨i, c⟩], nextId := st.nextId + 1 })

/-- Modelled from the spec: `countAll`, i.e. `count_documents({})`. -/
def countDocuments (st : DbState) : Nat := st.docs.length

/-! ## MongoDB filter semantics for the filters `list_chocolates` builds

`list_chocolates` (lines 81-89) builds `filter_dict` with an optional exact
`category` match and an optional `$or` of
`{"name": {"$regex": q, "$options": "i"}}` and `{"tags": {"$in": [q]}}`.
`$regex` performs an unanchored regular-expression search; we model the
regex dialect on the constructs a plain query string can contain: every
character matches itself literally except `.`, which matches any character
(further metacharacters of the real dialect are outside the model, so
theorems quantifying over `q` restrict `q` to metacharacter-free strings
where that matters). -/

inductive RegexTok where
  | dot
  | lit (c : Char)
  deriving DecidableEq, Repr

def parsePattern (q : String) : List RegexTok :=
  q.data.map (fun c => if c = '.' then .dot else .lit c)

/-- Case-insensitive token match (the `i` option). -/
def tokMatch : RegexTok → Char → Bool
  | .dot, _ => true
  | .lit l, c => l.toLower == c.toLower

/-- Does the pattern match a prefix of the character list? -/
def matchHere : List RegexTok → List Char → Bool
  | [], _ => true
  | _ :: _, [] => false
  | t :: ts, c :: cs => tokMatch t c && matchHere ts cs

/-- Unanchored search: does the pattern match starting anywhere? -/
def regexSearch (p : List RegexTok) : List Char → Bool
  | [] => matchHere p []
  | c :: cs => matchHere p (c :: cs) || regexSearch p cs

/-- The built `filter_dict`: an optional exact-match `category` entry and the
optional string `q` driving the `$or` clause. -/
structure FilterDict where
  category : Option String
  orQ : Option String
  deriving DecidableEq, Repr

/-- Python truthiness of `if category:` / `if q:` on an optional string
query parameter: absent and empty string both skip the filter. -/
def strTruthy (o : Option String) : Option String :=
  match o with
  | some s => if s == "" then none else some s
  | none => none

/-- `filter_dict` construction, `src/main.py` lines 81-89. -/
def buildFilter (category q : Option String) : FilterDict :=
  { category := strTruthy category, orQ := strTruthy q }

def categoryMatches (oc : Option String) (d : StoredDoc) : Bool :=
  match oc with
  | some c => d.choc.category == c
  | none => true

/-- The `$or` clause: name matches `q` as a case-insensitive regex, or the
tags array contains `q` (`$in` on a `null` tags field matches no string). -/
def orMatches (oq : Option String) (d : StoredDoc) : Bool :=
  match oq with
  | some q =>
    regexSearch (parsePattern q) d.choc.name.data ||
      (match d.choc.tags with
        | some l => l.contains q
        | none => false)
  | none => true

def docMatches (fd : FilterDict) (d : StoredDoc) : Bool :=
  categoryMatches fd.category d && orMatches fd.orQ d

/-- Modelled from the spec: `database.get_documents(collection, filter,
limit)` returns up to `limit` matching records in store order. -/
def get_documents (st : DbState) (fd : FilterDict) (limit : Nat) : List StoredDoc :=
  (st.docs.filter (docMatches fd)).take limit

/-! ## HTTP layer -/

/-- An `HTTPException(status_code, detail)`. -/
structure HttpError where
  status : Nat
  detail : String
  deriving DecidableEq, Repr

/-- A response record: the stored fields with `_id` renamed to `id` and
stringified. -/
structure ChocolateOut where
  id : String
  name : String
  description : String
  price : ℚ
  category : String
  cacao_percent : Option Int
  image : Option String
  tags : Option (List String)
  in_stock : Bool
  deriving DecidableEq, Repr

def renderDoc (d : StoredDoc) : ChocolateOut :=
  { id := d.oid
    name := d.choc.name
    description := d.choc.description
    price := d.choc.price
    category := d.choc.category
    cacao_percent := d.choc.cacao_percent
    image := d.choc.image
    tags := d.choc.tags
    in_stock := d.choc.in_stock }

/-- `POST /api/chocolates` (lines 69-76), success path: validate, construct
the record, insert, return the generated id. -/
def create_chocolate (st : DbState) (p : ChocolatePayload) : String × DbState :=
  create_document st (validatePayload p)

/-- `GET /api/chocolates` (lines 78-97): build the filter dict, query up to
`limit`, rename `_id` to a string `id`. -/
def list_chocolates (st : DbState) (category q : Option String) (limit : Nat) :
    List ChocolateOut :=
  (get_documents st (buildFilter category q) limit).map renderDoc

/-- `GET /api/chocolates/:choc_id` (lines 99-113).  A malformed id makes
`ObjectId(choc_id)` raise `InvalidId`, which is caught by the generic
`except Exception` handler and re-raised as a 500; only the
`find_one`-returned-nothing path raises the 404. -/
def get_chocolate (st : DbState) (choc_id : String) : Except HttpError ChocolateOut :=
  match parseObjectId choc_id with
  | .error e => .error ⟨500, e⟩
  | .ok oid =>
    match st.docs.find? (fun d => oidEq d.oid oid) with
    | none => .error ⟨404, "Chocolate not found"⟩
    | some d => .ok (renderDoc d)

/-! ## Seed -/

structure SeedResult where
  inserted : Nat
  message : Option String
  deriving DecidableEq, Repr

/-- The four predefined sample records of `seed_chocolates`
(`src/main.py` lines 123-164). -/
def seedSamples : List Chocolate :=
  [ { name := "Sea Salt Caramel Truffle"
      description := "Silky caramel center with a kiss of sea salt, enrobed in dark chocolate."
      price := 7/2
      category := "Truffle"
      cacao_percent := some 70
      image := some "https://images.unsplash.com/photo-1541781774459-bb2af2f05b55?q=80&w=1600&auto=format&fit=crop"
      tags := some ["caramel", "salted", "dark"]
      in_stock := true },
    { name := "Hazelnut Praline Bonbon"
      description := "Roasted hazelnut praline with a creamy finish, dipped in milk chocolate."
      price := 3
      category := "Bonbon"
      cacao_percent := some 45
      image := some "https://images.unsplash.com/photo-1606313564200-e75d5e30476c?q=80&w=1600&auto=format&fit=crop"
      tags := some ["hazelnut", "praline", "milk"]
      in_stock := true },
    { name := "Raspberry Velvet Heart"
      description := "Tart raspberry ganache balanced with rich dark chocolate in a heart shell."
      price := 16/5
      category := "Bonbon"
      cacao_percent := some 64
      image := some "https://images.unsplash.com/photo-1585145197082-583a1a5b86b8?q=80&w=1600&auto=format&fit=crop"
      tags := some ["raspberry", "fruit", "dark"]
      in_stock := true },
    { name := "Almond Crunch Bar"
      description := "Toasted almond nibs folded into a crisp 72% dark chocolate bar."
      price := 13/2
      category := "Bar"
      cacao_percent := some 72
      image := some "https://images.unsplash.com/photo-1624378439575-d8705ad7ae80?q=80&w=1600&auto=format&fit=crop"
      tags := some ["almond", "bar", "dark"]
      in_stock := true } ]

/-- `POST /api/chocolates/seed` (lines 115-168): when the collection already
has a record, report zero inserted; otherwise `insert_many` the four samples
(`inserted` is the number of generated ids) and report the count. -/
def seed_chocolates (st : DbState) : SeedResult × DbState :=
  if countDocuments st > 0 then
    ({ inserted := 0, message := some "Collection already has data" }, st)
  else
    let newDocs := seedSamples.enum.map
      (fun pr => StoredDoc.mk (oidToString (st.nextId + pr.1)) pr.2)
    ({ inserted := newDocs.length, message := none },
      { docs := st.docs ++ newDocs, nextId := st.nextId + newDocs.length })

/-! ## Diagnostic endpoint `GET /test` (lines 25-55)

The handle `db` comes from the missing `database.py`; what the handler needs
of it is whether it is `None`, its `name` attribute, and
`list_collection_names()` (which may raise — modelled as `Except`).  All
other statements of the handler body are total, so the handler's outer
`except` and its own totality make the embedding a total function into the
response type: no exception ever reaches the caller. -/

structure DbHandle where
  name : Option String
  listCollections : Except String (List String)

structure Env where
  databaseUrl : Option String
  databaseName : Option String

structure TestConfig where
  db : Option DbHandle
  env : Env

structure TestResponse where
  backend : String
  database : String
  database_url : String
  database_name : String
  connection_status : String
  collections : List String
  deriving DecidableEq, Repr

/-- `str(e)[:50]`. -/
def truncate50 (s : String) : String := String.mk (s.data.take 50)

/-- Python truthiness of `os.getenv(...)`: set to a non-empty string. -/
def envTruthy (o : Option String) : Bool :=
  match o with
  | some s => !(s == "")
  | none => false

def test_database (cfg : TestConfig) : TestResponse :=
  let database :=
    match cfg.db with
    | some h =>
      match h.listCollections with
      | .ok _ => "✅ Connected & Working"
      | .error e => "⚠️  Connected but Error: " ++ truncate50 e
    | none => "⚠️  Available but not initialized"
  let collections :=
    match cfg.db with
    | some h =>
      match h.listCollections with
      | .ok cs => cs.take 10
      | .error _ => []
    | none => []
  let connection_status :=
    match cfg.db with
    | some _ => "Connected"
    | none => "Not Connected"
  { backend := "✅ Running"
    database := database
    database_url := if envTruthy cfg.env.databaseUrl then "✅ Set" else "❌ Not Set"
    database_name := if envTruthy cfg.env.databaseName then "✅ Set" else "❌ Not Set"
    connection_status := connection_status
    collections := collections }

/-! ## Spec-side predicate for the list text filter (for comparison with the
code's regex behaviour): name contains `q` as a case-insensitive substring,
or the tags sequence contains `q` exactly. -/

/-- Does the first list occur as a leading run of the second? -/
def leadMatch : List Char → List Char → Bool
  | [], _ => true
  | _ :: _, [] => false
  | a :: as, b :: bs => a == b && leadMatch as bs

/-- Does the first list occur contiguously anywhere in the second? -/
def hasInfix (needle : List Char) : List Char → Bool
  | [] => leadMatch needle []
  | c :: cs => leadMatch needle (c :: cs) || hasInfix needle cs

/-- The spec sentence for the `q` filter: case-insensitive substring of the
name, or exact membership in the tags sequence. -/
def specQMatch (q : String) (c : Chocolate) : Bool :=
  hasInfix (q.data.map Char.toLower) (c.name.data.map Char.toLower) ||
    (match c.tags with
      | some l => l.contains q
      | none => false)

/-- Metacharacters of the regex dialect `$regex` uses; `q` free of these is
matched purely literally. -/
def regexMetaChars : List Char :=
  [Char.ofNat 46, Char.ofNat 42, Char.ofNat 43, Char.ofNat 63, Char.ofNat 94,
   Char.ofNat 36, Char.ofNat 124, Char.ofNat 40, Char.ofNat 41, Char.ofNat 91,
   Char.ofNat 93, Char.ofNat 92, Char.ofNat 123, Char.ofNat 125]

/-! ## Theorems -/

/-! ### Helper lemmas -/

theorem hexChar_isHexDigit (d : Nat) (hd : d < 16) : isHexDigitChar (hexChar d) = true := by
  interval_cases d <;> decide

theorem oidToString_valid (n : Nat) : isValidObjectIdStr (oidToString n) = true := by
  have hlen : (oidToString n).length = 24 := by
    show ((List.range 24).map (fun i => hexChar (n / 16 ^ (23 - i) % 16))).length = 24
    simp
  have hall : ∀ c ∈ (oidToString n).data, isHexDigitChar c = true := by
    intro c hc
    have hc' : c ∈ (List.range 24).map (fun i => hexChar (n / 16 ^ (23 - i) % 16)) := hc
    obtain ⟨i, _, hci⟩ := List.mem_map.mp hc'
    rw [← hci]
    exact hexChar_isHexDigit _ (Nat.mod_lt _ (by norm_num))
  simp only [isValidObjectIdStr, List.all_eq_true, Bool.and_eq_true, beq_iff_eq]
  exact ⟨hlen, hall⟩

theorem oidEq_refl (a : String) : oidEq a a = true := by simp [oidEq]

theorem find?_append_singleton {α : Type} (l : List α) (p : α → Bool) (a : α)
    (h : ∀ x ∈ l, p x = false) :
    (l ++ [a]).find? p = if p a then some a else none := by
  induction l with
  | nil =>
    simp only [List.nil_append]
    cases hpa : p a <;> simp [List.find?, hpa]
  | cons x xs ih =>
    have hx : p x = false := h x (by simp)
    simp only [List.cons_append, List.find?, hx]
    exact ih (fun y hy => h y (by simp [hy]))

theorem seed_chocolates_nonempty (st : DbState) (h : st.docs ≠ []) :
    seed_chocolates st =
      ({ inserted := 0, message := some "Collection already has data" }, st) := by
  have hc : countDocuments st > 0 := by
    cases hd : st.docs with
    | nil => exact absurd hd h
    | cons a l => simp [countDocuments, hd]
  unfold seed_chocolates
  rw [if_pos hc]

theorem map_tok_eq_lit (l : List Char) (h : ∀ c ∈ l, c ≠ '.') :
    l.map (fun c => if c = '.' then RegexTok.dot else RegexTok.lit c) =
      l.map RegexTok.lit := by
  induction l with
  | nil => rfl
  | cons a as ih =>
    have ha : a ≠ '.' := h a (by simp)
    simp only [List.map_cons, if_neg ha]
    rw [ih (fun c hc => h c (by simp [hc]))]

theorem matchHere_lit (qs : List Char) : ∀ cs : List Char,
    matchHere (qs.map RegexTok.lit) cs =
      leadMatch (qs.map Char.toLower) (cs.map Char.toLower) := by
  induction qs with
  | nil => intro cs; rfl
  | cons a as ih =>
    intro cs
    cases cs with
    | nil => rfl
    | cons c cs' => simp [matchHere, leadMatch, tokMatch, ih]

theorem regexSearch_lit (qs : List Char) : ∀ cs : List Char,
    regexSearch (qs.map RegexTok.lit) cs =
      hasInfix (qs.map Char.toLower) (cs.map Char.toLower) := by
  intro cs
  induction cs with
  | nil => simpa using matchHere_lit qs []
  | cons c cs' ih => simp [regexSearch, hasInfix, matchHere_lit, ih]

theorem hasInfix_nil (l : List Char) : hasInfix [] l = true := by
  cases l <;> simp [hasInfix, leadMatch]

theorem docMatches_q_spec (q : String) (h : ∀ c ∈ q.data, c ∉ regexMetaChars)
    (d : StoredDoc) :
    docMatches (buildFilter none (some q)) d = specQMatch q d.choc := by
  have hdot : ∀ c ∈ q.data, c ≠ '.' := by
    intro c hc he
    exact absurd (by rw [he]; decide) (fun hx => (h c hc) hx)
  by_cases hq : q = ""
  · subst hq
    show (true && orMatches (strTruthy (some "")) d) = specQMatch "" d.choc
    have h1 : strTruthy (some "") = none := rfl
    have h2 : ("" : String).data = [] := rfl
    simp [h1, orMatches, specQMatch, h2, hasInfix_nil]
  · have hq' : (q == "") = false := by simpa using hq
    have hp : parsePattern q = q.data.map RegexTok.lit := by
      unfold parsePattern
      exact map_tok_eq_lit q.data hdot
    show (true && orMatches (strTruthy (some q)) d) = specQMatch q d.choc
    rw [Bool.true_and]
    show orMatches (if q == "" then none else some q) d = specQMatch q d.choc
    rw [hq']
    show (regexSearch (parsePattern q) d.choc.name.data || _) = specQMatch q d.choc
    rw [hp, regexSearch_lit]
    rfl

/-- C1 (counterexample): a syntactically malformed identifier supplied to
`GET /api/chocolates/:id` produces a 500 response (the `InvalidId` raise is
caught by the generic handler), not the 404 the claim states, while a
well-formed but absent identifier produces the 404. -/
theorem get_chocolate_malformed_counterexample :
    get_chocolate ⟨[], 0⟩ "not-an-id" =
      .error ⟨500, "not-an-id is not a valid ObjectId, it must be a 12-byte input or a 24-character hex string"⟩ ∧
    get_chocolate ⟨[], 0⟩ (oidToString 5) = .error ⟨404, "Chocolate not found"⟩ ∧
    (500 : Nat) ≠ 404 := by
  refine ⟨rfl, rfl, by decide⟩

/-- C1 (amended): for every syntactically malformed identifier, the get-by-id
operation responds with a 500 server error carrying the parse failure
message; only a well-formed identifier matching no record yields 404. -/
theorem get_chocolate_malformed_is_500 (st : DbState) (s : String)
    (h : isValidObjectIdStr s = false) :
    get_chocolate st s =
      .error ⟨500, s ++ " is not a valid ObjectId, it must be a 12-byte input or a 24-character hex string"⟩ := by
  simp [get_chocolate, parseObjectId, h]

/-- Witness for the amended C1 at the concrete malformed identifier "abc". -/
theorem get_chocolate_malformed_is_500_witness :
    isValidObjectIdStr "abc" = false ∧
    get_chocolate ⟨[], 0⟩ "abc" =
      .error ⟨500, "abc is not a valid ObjectId, it must be a 12-byte input or a 24-character hex string"⟩ :=
  ⟨by decide, get_chocolate_malformed_is_500 ⟨[], 0⟩ "abc" (by decide)⟩

/-- C6: the diagnostic handler is a total function into the response type
(no exception reaches the caller), always reports the backend as running,
and its `database` field is exactly the descriptive status string of the
branch taken — in particular every exception `e` of the collection-listing
sub-check degrades to the truncated warning string. -/
theorem test_database_never_fails (cfg : TestConfig) :
    (test_database cfg).backend = "✅ Running" ∧
    (test_database cfg).database =
      (match cfg.db with
       | none => "⚠️  Available but not initialized"
       | some h =>
         match h.listCollections with
         | .ok _ => "✅ Connected & Working"
         | .error e => "⚠️  Connected but Error: " ++ truncate50 e) := by
  refine ⟨rfl, ?_⟩
  cases hdb : cfg.db with
  | none => simp [test_database, hdb]
  | some h => cases hc : h.listCollections <;> simp [test_database, hdb, hc]

/-- C7: the diagnostic response lists the first at-most-10 visible
collection names: whenever the listing sub-check yields `cs`, the
`collections` field is `cs.take 10`, has length at most 10, and `cs` extends
it. -/
theorem test_database_collections_capped (cfg : TestConfig) (h : DbHandle)
    (cs : List String) (hdb : cfg.db = some h) (hls : h.listCollections = .ok cs) :
    (test_database cfg).collections = cs.take 10 ∧
    (test_database cfg).collections.length ≤ 10 ∧
    ∃ t, cs = (test_database cfg).collections ++ t := by
  have hcol : (test_database cfg).collections = cs.take 10 := by
    simp [test_database, hdb, hls]
  refine ⟨hcol, ?_, ?_⟩
  · rw [hcol]
    simp [List.length_take]
  · exact ⟨cs.drop 10, by rw [hcol, List.take_append_drop]⟩

/-- Witness for C7 at a configuration exposing 12 collections. -/
theorem test_database_collections_capped_witness :
    (test_database ⟨some ⟨none, .ok ["a", "b", "c", "d", "e", "f", "g", "h", "i", "j", "k", "l"]⟩,
        ⟨none, none⟩⟩).collections =
      ["a", "b", "c", "d", "e", "f", "g", "h", "i", "j", "k", "l"].take 10 :=
  (test_database_collections_capped _ _ _ rfl rfl).1

/-- C8 (counterexample): two environments both having DATABASE_URL set,
differing only in its value (non-empty vs empty string), produce different
`database_url` fields — the report depends on Python truthiness of the
value, not on presence alone. -/
theorem test_database_env_counterexample :
    (test_database ⟨none, ⟨some "mongodb://localhost", some "choc"⟩⟩).database_url = "✅ Set" ∧
    (test_database ⟨none, ⟨some "", some "choc"⟩⟩).database_url = "❌ Not Set" ∧
    (some "mongodb://localhost").isSome = (some "").isSome ∧
    ("✅ Set" : String) ≠ "❌ Not Set" :=
  ⟨rfl, rfl, rfl, by decide⟩

/-- C8 (amended): the `database_url` and `database_name` fields depend only
on whether the corresponding environment variable is set to a NON-EMPTY
value: two configurations agreeing on that truthiness produce equal
fields. -/
theorem test_database_env_presence_only (c1 c2 : TestConfig)
    (hu : envTruthy c1.env.databaseUrl = envTruthy c2.env.databaseUrl)
    (hn : envTruthy c1.env.databaseName = envTruthy c2.env.databaseName) :
    (test_database c1).database_url = (test_database c2).database_url ∧
    (test_database c1).database_name = (test_database c2).database_name := by
  constructor
  · simp only [test_database]
    rw [hu]
  · simp only [test_database]
    rw [hn]

/-- Witness for the amended C8: two runs with distinct non-empty values. -/
theorem test_database_env_presence_only_witness :
    (test_database ⟨none, ⟨some "mongodb://a", some "x"⟩⟩).database_url =
      (test_database ⟨none, ⟨some "mongodb://b", some "y"⟩⟩).database_url :=
  (test_database_env_presence_only ⟨none, ⟨some "mongodb://a", some "x"⟩⟩
    ⟨none, ⟨some "mongodb://b", some "y"⟩⟩ (by decide) (by decide)).1

/-- C9: an empty-string `category` or `q` parameter is falsy in the
`if category:` / `if q:` guards, so the corresponding filter is omitted and
the list result equals the one with the parameter absent. -/
theorem list_chocolates_empty_param (st : DbState) (c q : Option String) (limit : Nat) :
    list_chocolates st (some "") q limit = list_chocolates st none q limit ∧
    list_chocolates st c (some "") limit = list_chocolates st c none limit := by
  constructor <;> simp [list_chocolates, buildFilter, strTruthy]

/-- C10: a create payload carrying an explicit `null` for `tags` validates
to a record whose `tags` field is `None`, not the empty sequence; the
record inserted by create is exactly that validated record. -/
theorem create_null_tags (st : DbState) (p : ChocolatePayload)
    (h : p.tags = JField.null) :
    (validatePayload p).tags = none ∧ (validatePayload p).tags ≠ some [] ∧
    (create_chocolate st p).2.docs =
      st.docs ++ [⟨(create_chocolate st p).1, validatePayload p⟩] := by
  refine ⟨?_, ?_, rfl⟩ <;> simp [validatePayload, h]

/-- Witness for C10 at a concrete payload with `tags: null`. -/
theorem create_null_tags_witness :
    (validatePayload ⟨"n", "d", 1, "c", JField.omitted, JField.omitted, JField.null, none⟩).tags
      = none :=
  (create_null_tags ⟨[], 0⟩ _ rfl).1

/-- C5 (counterexample): with `category=""` supplied, the category filter is
dropped, so a record whose category is "Bar" — not equal to the supplied
string "" — is returned, refuting the claim for the empty category
string. -/
theorem list_category_counterexample :
    (list_chocolates ⟨[⟨"a", ⟨"n", "d", 1, "Bar", none, none, some [], true⟩⟩], 1⟩
        (some "") none 50).map (fun r => r.category) = ["Bar"] ∧
    ("Bar" : String) ≠ "" :=
  ⟨rfl, by decide⟩

/-- C5 (amended): for every NON-EMPTY category string, the list result is
exactly the store filtered by category equality ANDed with the text filter
(then capped), and every returned record has exactly that category. -/
theorem list_category_exact_and (st : DbState) (c : String) (q : Option String)
    (limit : Nat) (hc : c ≠ "") :
    list_chocolates st (some c) q limit =
      ((st.docs.filter
          (fun d => (d.choc.category == c) && orMatches (strTruthy q) d)).take limit).map
        renderDoc ∧
    ∀ r ∈ list_chocolates st (some c) q limit, r.category = c := by
  have hst : strTruthy (some c) = some c := by simp [strTruthy, hc]
  have heq : list_chocolates st (some c) q limit =
      ((st.docs.filter
          (fun d => (d.choc.category == c) && orMatches (strTruthy q) d)).take limit).map
        renderDoc := by
    unfold list_chocolates get_documents buildFilter
    rw [hst]
    rfl
  refine ⟨heq, ?_⟩
  intro r hr
  rw [heq] at hr
  obtain ⟨d, hd, hrd⟩ := List.mem_map.mp hr
  have hd' := List.mem_of_mem_take hd
  have hmatch := (List.mem_filter.mp hd').2
  rw [Bool.and_eq_true] at hmatch
  have hcat : (d.choc.category == c) = true := hmatch.1
  have : d.choc.category = c := by simpa using hcat
  rw [← hrd]
  simpa [renderDoc] using this

/-- Witness for the amended C5 at the concrete category "Bar". -/
theorem list_category_exact_and_witness :
    list_chocolates ⟨[], 0⟩ (some "Bar") none 50 =
      ((([] : List StoredDoc).filter
          (fun d => (d.choc.category == "Bar") && orMatches (strTruthy none) d)).take 50).map
        renderDoc :=
  (list_category_exact_and ⟨[], 0⟩ "Bar" none 50 (by decide)).1

/-- C2: creating a record from a valid payload and fetching it by the
returned identifier yields a record whose fields equal the submitted
payload with pydantic defaults applied — in particular `tags = []` and
`in_stock = true` when those fields are omitted.  The freshness hypothesis
is the store adapter's unique-id guarantee. -/
theorem create_then_get_roundtrip (st : DbState) (p : ChocolatePayload)
    (hfresh : ∀ d ∈ st.docs, oidEq d.oid (oidToString st.nextId) = false) :
    get_chocolate (create_chocolate st p).2 (create_chocolate st p).1 =
      .ok { id := (create_chocolate st p).1
            name := p.name
            description := p.description
            price := p.price
            category := p.category
            cacao_percent := p.cacao_percent.toOption
            image := p.image.toOption
            tags := match p.tags with
              | .omitted => some []
              | .null => none
              | .val l => some l
            in_stock := p.in_stock.getD true } := by
  unfold get_chocolate
  rw [show parseObjectId (create_chocolate st p).1 = .ok (oidToString st.nextId) from by
    simp [parseObjectId, oidToString_valid, create_chocolate, create_document]]
  dsimp only
  rw [show (create_chocolate st p).2.docs =
      st.docs ++ [⟨oidToString st.nextId, validatePayload p⟩] from rfl]
  rw [find?_append_singleton _ _ _ (fun d hd => hfresh d hd)]
  simp [oidEq_refl, renderDoc, validatePayload, create_chocolate, create_document]

/-- Witness for C2: the example of spec §8 — a payload with only the
required fields round-trips with `tags = []` and `in_stock = true`. -/
theorem create_then_get_roundtrip_witness :
    get_chocolate
        (create_chocolate ⟨[], 0⟩
          ⟨"Test Bar", "d", 5, "Bar", JField.omitted, JField.omitted, JField.omitted, none⟩).2
        (create_chocolate ⟨[], 0⟩
          ⟨"Test Bar", "d", 5, "Bar", JField.omitted, JField.omitted, JField.omitted, none⟩).1 =
      .ok { id := (create_chocolate ⟨[], 0⟩
              ⟨"Test Bar", "d", 5, "Bar", JField.omitted, JField.omitted, JField.omitted, none⟩).1
            name := "Test Bar"
            description := "d"
            price := 5
            category := "Bar"
            cacao_percent := none
            image := none
            tags := some []
            in_stock := true } :=
  create_then_get_roundtrip ⟨[], 0⟩
    ⟨"Test Bar", "d", 5, "Bar", JField.omitted, JField.omitted, JField.omitted, none⟩
    (by simp)

/-- C3: seeding an empty collection inserts exactly the 4 sample records and
reports 4; seeding a non-empty collection inserts nothing, leaves the store
unchanged and reports 0 with the "already has data" message — hence seed is
idempotent after the first successful run (spelled out for the
immediately-repeated run). -/
theorem seed_spec (st : DbState) :
    (st.docs = [] →
      (seed_chocolates st).1 = { inserted := 4, message := none } ∧
      (seed_chocolates st).2.docs.length = 4 ∧
      (seed_chocolates (seed_chocolates st).2).1 =
        { inserted := 0, message := some "Collection already has data" } ∧
      (seed_chocolates (seed_chocolates st).2).2 = (seed_chocolates st).2) ∧
    (st.docs ≠ [] →
      (seed_chocolates st).1 = { inserted := 0, message := some "Collection already has data" } ∧
      (seed_chocolates st).2 = st) := by
  have hlen : ∀ m : Nat, (seedSamples.enum.map
      (fun pr => StoredDoc.mk (oidToString (m + pr.1)) pr.2)).length = 4 := by
    intro m
    rw [List.length_map, List.enum_length]
    rfl
  constructor
  · intro h
    have hc0 : ¬ countDocuments st > 0 := by simp [countDocuments, h]
    have hfst : seed_chocolates st =
        ({ inserted := 4, message := none },
          { docs := st.docs ++ seedSamples.enum.map
              (fun pr => StoredDoc.mk (oidToString (st.nextId + pr.1)) pr.2),
            nextId := st.nextId + 4 }) := by
      unfold seed_chocolates
      rw [if_neg hc0]
      simp [hlen]
    have hdoclen : (seed_chocolates st).2.docs.length = 4 := by
      rw [hfst]
      simp [h, hlen]
    have hne : (seed_chocolates st).2.docs ≠ [] := by
      intro hnil
      rw [hnil] at hdoclen
      simp at hdoclen
    have hsnd := seed_chocolates_nonempty _ hne
    exact ⟨by rw [hfst], hdoclen, by rw [hsnd], by rw [hsnd]⟩
  · intro h
    have hsnd := seed_chocolates_nonempty st h
    exact ⟨by rw [hsnd], by rw [hsnd]⟩

/-- Witness for C3: seeding the empty store reports 4 inserted, and
re-seeding the result reports 0 with the "already has data" message. -/
theorem seed_spec_witness :
    (DbState.mk [] 0).docs = [] ∧
    (seed_chocolates ⟨[], 0⟩).1 = { inserted := 4, message := none } ∧
    (seed_chocolates (seed_chocolates ⟨[], 0⟩).2).1 =
      { inserted := 0, message := some "Collection already has data" } :=
  ⟨rfl, ((seed_spec ⟨[], 0⟩).1 rfl).1, ((seed_spec ⟨[], 0⟩).1 rfl).2.2.1⟩

/-- C4 (counterexample): the query string is passed to `$regex` unescaped,
so `q = "."` matches the name "ab" (the `.` metacharacter matches any
character) although "ab" neither contains "." as a substring nor has "."
among its tags — the record is returned though the claim says it must be
excluded. -/
theorem list_q_regex_counterexample :
    list_chocolates ⟨[⟨"a", ⟨"ab", "d", 1, "Bar", none, none, some [], true⟩⟩], 1⟩
        none (some ".") 50 =
      [renderDoc ⟨"a", ⟨"ab", "d", 1, "Bar", none, none, some [], true⟩⟩] ∧
    specQMatch "." ⟨"ab", "d", 1, "Bar", none, none, some [], true⟩ = false :=
  ⟨rfl, rfl⟩

/-- C4 (amended): for every query string free of regex metacharacters, the
list result is exactly the records whose name contains `q` as a
case-insensitive substring or whose tags sequence contains `q` exactly
(in store order, capped at `limit`); all others are excluded. -/
theorem list_q_filter_spec (st : DbState) (q : String) (limit : Nat)
    (h : ∀ c ∈ q.data, c ∉ regexMetaChars) :
    list_chocolates st none (some q) limit =
      ((st.docs.filter (fun d => specQMatch q d.choc)).take limit).map renderDoc := by
  unfold list_chocolates get_documents
  rw [List.filter_congr (fun d _ => docMatches_q_spec q h d)]

/-- Witness for the amended C4 at the concrete query "dark" over a
one-record store. -/
theorem list_q_filter_spec_witness :
    list_chocolates ⟨[⟨"a", ⟨"Dark Bar", "d", 1, "Bar", none, none, some [], true⟩⟩], 1⟩
        none (some "dark") 50 =
      ((([⟨"a", ⟨"Dark Bar", "d", 1, "Bar", none, none, some [], true⟩⟩] :
          List StoredDoc).filter
          (fun d : StoredDoc => specQMatch "dark" d.choc)).take 50).map renderDoc :=
  list_q_filter_spec ⟨[⟨"a", ⟨"Dark Bar", "d", 1, "Bar", none, none, some [], true⟩⟩], 1⟩
    "dark" 50 (by decide)

end ChocolateApi
